import Mathlib

/-!
Shallow embedding of `src/driving.py` (valdezseb/driving): the predecessor
identifier parser `clean_id_string`, the numeric coercion `safe_numeric`,
the working-day stepper `add_working_days`, and the projection engine
`calculate_projected_start`, together with theorems checking the
specification of the repository against these definitions.

Modelling conventions:
* Calendar dates are proleptic-Gregorian day ordinals (`ℤ`), as in
  `datetime.date.toordinal` of Python; ordinal 1 (0001-01-01) is a Monday,
  so `weekday d = (d + 6) % 7` matches `date.weekday()`
  (Monday = 0 ... Sunday = 6).
* Dataframe cells are the inductive `Cell`: a missing value (`na`, the
  pandas NaN/NaT), free text (`str`), a numeric value (`num`, exact
  rationals standing in for floats), or an already-parsed calendar date
  (`date`).
* The Python module has two unbound names: it never imports `re` (used on
  line 14 inside `clean_id_string`), and `calculate_projected_start` reads
  a global `unique_id` (line 43) that is bound nowhere in the module and is
  not a parameter of the function.  The `...Run` definitions embed the
  resulting runtime behaviour (a `NameError` as soon as those lines are
  reached); the main definitions embed the function bodies with the `re`
  calls given their standard regex semantics and with `unique_id` passed
  as an explicit parameter, so that the per-line logic of the source can
  be checked as well.
-/

namespace Driving

/-- A Python `NameError`, raised when an unbound global name is read. -/
inductive PyErr where
  | nameError (missingName : String)
deriving DecidableEq

/-- Weekday of a day ordinal, matching `date.weekday()` of Python:
Monday = 0, ..., Sunday = 6 (ordinal 1 is a Monday). -/
def weekday (d : ℤ) : ℤ :=
  (d + 6) % 7

/-- Number of weekend days immediately following day `c` before the next
weekday: 2 if `c + 1` is a Saturday, 1 if it is a Sunday, 0 otherwise.
Used only as the secondary termination measure of the day-stepping loop of
`add_working_days` (source lines 32-35). -/
def wgap (c : ℤ) : ℕ :=
  if weekday (c + 1) = 5 then 2 else if weekday (c + 1) = 6 then 1 else 0

/-- Loop of `add_working_days` (source lines 32-35): state is the current
date and the number of working days added so far; each iteration advances
one calendar day and counts it when it is a Monday-Friday.  The loop bound
`days` is the raw (possibly fractional) float argument, modelled as `ℚ`. -/
def addWorkingDaysGo (days : ℚ) (current : ℤ) (added : ℕ) : ℤ :=
  if h1 : (added : ℚ) < days then
    if h2 : weekday (current + 1) < 5 then
      addWorkingDaysGo days (current + 1) (added + 1)
    else
      addWorkingDaysGo days (current + 1) added
  else current
termination_by 7 * ((⌈days⌉).toNat - added) + wgap current
decreasing_by
· have ha : (added : ℤ) < ⌈days⌉ := Int.lt_ceil.mpr (by exact_mod_cast h1)
  have hg : wgap (current + 1) ≤ 2 := by
    simp only [wgap]; split_ifs <;> omega
  omega
· have hw : wgap (current + 1) < wgap current := by
    simp only [wgap, weekday] at h2 ⊢
    split_ifs <;> omega
  omega

/-- Embedding of `add_working_days` (source lines 29-36). -/
def add_working_days (start_date : ℤ) (days : ℚ) : ℤ :=
  addWorkingDaysGo days start_date 0

/-- Number of iterations performed by the day-stepping loop of
`add_working_days`, defined by the same recursion as `addWorkingDaysGo`. -/
def awdIters (days : ℚ) (current : ℤ) (added : ℕ) : ℕ :=
  if h1 : (added : ℚ) < days then
    (if h2 : weekday (current + 1) < 5 then
      awdIters days (current + 1) (added + 1)
    else
      awdIters days (current + 1) added) + 1
  else 0
termination_by 7 * ((⌈days⌉).toNat - added) + wgap current
decreasing_by
· have ha : (added : ℤ) < ⌈days⌉ := Int.lt_ceil.mpr (by exact_mod_cast h1)
  have hg : wgap (current + 1) ≤ 2 := by
    simp only [wgap]; split_ifs <;> omega
  omega
· have hw : wgap (current + 1) < wgap current := by
    simp only [wgap, weekday] at h2 ⊢
    split_ifs <;> omega
  omega

/-- A dataframe cell: missing (pandas NaN/NaT), free text, a numeric value,
or an already-parsed calendar date. -/
inductive Cell where
  | na : Cell
  | str : String → Cell
  | num : ℚ → Cell
  | date : ℤ → Cell
deriving DecidableEq

/-- Embedding of `pd.isna` on a single cell. -/
def isnaCell : Cell → Bool
  | .na => true
  | _ => false

/-- Interface model of `pd.to_datetime(value, errors=coerce)` (source lines
49-50, 72): a cell that already holds a calendar date parses to it; a
missing or non-date cell coerces to NaT, modelled as `none`. -/
def to_datetime : Cell → Option ℤ
  | .date d => some d
  | _ => none

/-- Embedding of `safe_numeric` (source lines 23-27): `float(value)` with
`ValueError`/`TypeError` falling back to the default `0` (the only default
used by the callers).  Numeric cells coerce to their value; missing and
textual cells fall back to `0`. -/
def safe_numeric : Cell → ℚ
  | .num q => q
  | _ => 0

/-- Character-level model of `str.split(sep)` of Python for a one-character
separator: every occurrence splits, empty pieces are kept, and the empty
string yields one empty piece. -/
def splitOnChar (sep : Char) : List Char → List (List Char)
  | [] => [[]]
  | c :: cs =>
    let rest := splitOnChar sep cs
    if c = sep then [] :: rest
    else
      match rest with
      | [] => [[c]]
      | g :: gs => (c :: g) :: gs

/-- Character-level model of `str.strip()`: drop whitespace from both
ends. -/
def stripChars (l : List Char) : List Char :=
  ((l.dropWhile Char.isWhitespace).reverse.dropWhile Char.isWhitespace).reverse

/-- Rejoin the pieces produced by `splitOnChar` with a separator. -/
def joinWithChar (sep : Char) : List (List Char) → List Char
  | [] => []
  | [g] => g
  | g :: gs => g ++ sep :: joinWithChar sep gs

/-- Model of `re.sub(r..., ..., item)` for the pattern of source line 14
(a plus sign followed by any run of non-newline characters, replaced by the
empty string): within each newline-separated segment, everything from the
first plus sign onward is removed. -/
def dropFromPlus (l : List Char) : List Char :=
  joinWithChar '\n' ((splitOnChar '\n' l).map (fun line => line.takeWhile (fun c => c != '+')))

/-- Model of `re.sub` for the pattern of source line 15 (a trailing run of
non-digit characters anchored at the end, replaced by the empty string):
the maximal all-non-digit suffix is removed. -/
def dropTrailingNonDigits (l : List Char) : List Char :=
  (l.reverse.dropWhile (fun c => ! c.isDigit)).reverse

/-- Model of the first match of `re.findall` for the all-digits pattern of
source line 16: the first maximal run of digit characters (empty when the
item has no digit). -/
def firstDigitRun (l : List Char) : List Char :=
  (l.dropWhile (fun c => ! c.isDigit)).takeWhile (fun c => c.isDigit)

/-- Value of `int(s)` on a non-empty digit string. -/
def digitsToInt (l : List Char) : ℤ :=
  l.foldl (fun n c => 10 * n + ((c.toNat : ℤ) - 48)) 0

/-- Model of `str(cell)` of Python, as a character list. -/
def pyStr : Cell → List Char
  | .na => "nan".data
  | .str s => s.data
  | .num q => (toString q).data
  | .date d => (toString d).data

/-- Embedding of the body of `clean_id_string` (source lines 6-21), with the
two `re.sub` calls and `re.findall` given their standard regex semantics:
missing input yields no identifiers; otherwise the text is split on commas
and each item is stripped, truncated at its first plus sign, stripped of a
trailing non-digit run, and contributes the integer value of its first
digit run when one remains.  (The module itself never imports `re`; the
runtime behaviour of the source is `clean_id_stringRun` below.) -/
def clean_id_string (id_string : Cell) : List ℤ :=
  if isnaCell id_string then []
  else
    (splitOnChar ',' (pyStr id_string)).filterMap (fun item =>
      let item1 := dropFromPlus (stripChars item)
      let item2 := dropTrailingNonDigits item1
      let digits := firstDigitRun item2
      if digits.isEmpty then none else some (digitsToInt digits))

/-- Runtime behaviour of `clean_id_string` in the source module: the `pd.isna`
check (line 7) succeeds and returns `[]`, but on any other input the loop
body is entered (line 10 `str(x).split(",")` always yields at least one
item) and line 14 reads the global name `re`, which the module never
imports, so a `NameError` for `re` is raised. -/
def clean_id_stringRun (id_string : Cell) : Except PyErr (List ℤ) :=
  if isnaCell id_string then .ok []
  else .error (.nameError "re")

/-- A tabular dataset: the schema (column names) and the rows, each row a
total assignment of cells to column names. -/
structure DataFrame where
  columns : List String
  rows : List (String → Cell)

/-- Model of the elementwise comparison `df[col] == unique_id` of pandas on
one cell, for an integer identifier: only a numeric cell equal to the
identifier compares true (text never equals a number, and NaN compares
false to everything). -/
def cellEqInt (c : Cell) (v : ℤ) : Bool :=
  match c with
  | .num q => q == (v : ℚ)
  | _ => false

/-- Model of `df.loc[df[col] == v]` followed by the `.empty` check and
`.iloc[0]` (source lines 43-47 and 66-70): the first row whose identifier
column equals `v`, when one exists. -/
def findTask (df : DataFrame) (col : String) (v : ℤ) : Option (String → Cell) :=
  (df.rows.filter (fun r => cellEqInt (r col) v)).head?

/-- One entry of `predecessor_data` (source lines 83-88). -/
structure PredFact where
  predId : ℤ
  percentComplete : ℚ
  remainingDuration : ℚ
  statusDate : ℤ
deriving DecidableEq

/-- Embedding of the predecessor loop of `calculate_projected_start`
(source lines 63-88): for each parsed identifier in order, skip it when its
row is absent, when its status date does not parse, or when its percent
complete equals 1; otherwise append a fact with the derived values. -/
def buildPredecessorData (df : DataFrame) (uidCol statusCol pctCol remCol : String) :
    List ℤ → List PredFact
  | [] => []
  | pred_id :: rest =>
    match findTask df uidCol pred_id with
    | none => buildPredecessorData df uidCol statusCol pctCol remCol rest
    | some predecessor =>
      match to_datetime (predecessor statusCol) with
      | none => buildPredecessorData df uidCol statusCol pctCol remCol rest
      | some pred_status_date =>
        let percent_complete := safe_numeric (predecessor pctCol)
        let remaining_duration := safe_numeric (predecessor remCol)
        if percent_complete = 1 then
          buildPredecessorData df uidCol statusCol pctCol remCol rest
        else
          ⟨pred_id, percent_complete, remaining_duration, pred_status_date⟩ ::
            buildPredecessorData df uidCol statusCol pctCol remCol rest

/-- Model of `predecessor_df[...].max()` (source line 95), only ever applied
to a non-empty fact list in the source; `0` on the empty list. -/
def maxRemaining : List PredFact → ℚ
  | [] => 0
  | f :: fs => fs.foldl (fun acc g => max acc g.remainingDuration) f.remainingDuration

/-- Failure outcomes of `calculate_projected_start`.  In the source every
failure returns the same `(None, None, None, empty frame)` tuple after an
`st.error`/`st.warning` message; the constructor records which message
(source lines 40, 45, 52, 55). -/
inductive ProjError where
  | schemaError (col : String)
  | notFound (taskId : ℤ)
  | invalidStatusDate (taskId : ℤ)
  | invalidStartDate (taskId : ℤ)
deriving DecidableEq

/-- Successful result tuple of `calculate_projected_start`: projected start,
planned start, delta in days, predecessor facts. -/
structure ProjSuccess where
  projectedStart : ℤ
  plannedStart : ℤ
  delta : ℤ
  predecessorData : List PredFact
deriving DecidableEq

/-- Embedding of the body of `calculate_projected_start` (source lines
38-105).  The source reads the free global name `unique_id` on line 43; the
module never binds it, so this embedding takes it as an explicit parameter
(the runtime behaviour of the module as written is
`calculate_projected_startRun` below).  The `delta` of the two early
returns (lines 59 and 93) is the literal `0` of the source; the final
return computes `projected - planned` (line 103, exact for whole-day
timestamps). -/
def calculate_projected_start (df : DataFrame) (unique_id : ℤ)
    (unique_id_col status_date_col start_col percent_complete_col
      remaining_duration_col predecessors_col : String) :
    Except ProjError ProjSuccess :=
  if unique_id_col ∈ df.columns then
    match findTask df unique_id_col unique_id with
    | none => .error (.notFound unique_id)
    | some task =>
      match to_datetime (task status_date_col), to_datetime (task start_col) with
      | none, _ => .error (.invalidStatusDate unique_id)
      | some _, none => .error (.invalidStartDate unique_id)
      | some status_date, some planned_start =>
        if isnaCell (task predecessors_col) then
          .ok ⟨status_date, planned_start, 0, []⟩
        else
          let predecessor_data :=
            buildPredecessorData df unique_id_col status_date_col percent_complete_col
              remaining_duration_col (clean_id_string (task predecessors_col))
          if predecessor_data.isEmpty then
            .ok ⟨status_date, planned_start, 0, []⟩
          else
            let max_remaining_duration := maxRemaining predecessor_data
            let projected_start := add_working_days status_date max_remaining_duration
            .ok ⟨projected_start, planned_start, projected_start - planned_start,
              predecessor_data⟩
  else .error (.schemaError unique_id_col)

/-- Runtime behaviour of `calculate_projected_start` in the source module:
after the schema check of line 39 passes, line 43 reads the global name
`unique_id`, which is neither a parameter of the function nor bound
anywhere in the module, so a `NameError` for `unique_id` is raised; when
the schema check fails the function returns the None tuple (modelled
`.ok none`). -/
def calculate_projected_startRun (df : DataFrame)
    (unique_id_col _status_date_col _start_col _percent_complete_col
      _remaining_duration_col _predecessors_col : String) :
    Except PyErr (Option ProjSuccess) :=
  if unique_id_col ∈ df.columns then .error (.nameError "unique_id")
  else .ok none

/-! Example dataframes used by the concrete witnesses and counterexamples.
All of them use the schema
`["id", "status", "start", "pct", "rem", "preds"]`. -/

/-- Task 1 with valid status date 10 and planned start 8, and a missing
(NaN) predecessors field. -/
def rowA : String → Cell := fun col =>
  if col = "id" then .num 1
  else if col = "status" then .date 10
  else if col = "start" then .date 8
  else .na

/-- One-task dataset: task 1 with no predecessors. -/
def dfA : DataFrame :=
  ⟨["id", "status", "start", "pct", "rem", "preds"], [rowA]⟩

/-- Task 1 with valid dates and the predecessor field `"7"`. -/
def rowB : String → Cell := fun col =>
  if col = "id" then .num 1
  else if col = "status" then .date 10
  else if col = "start" then .date 8
  else if col = "preds" then .str "7"
  else .na

/-- Task 7: valid status date 20, percent complete `3/2` (greater than 1),
remaining duration 3. -/
def rowB7 : String → Cell := fun col =>
  if col = "id" then .num 7
  else if col = "status" then .date 20
  else if col = "pct" then .num (mkRat 3 2)
  else if col = "rem" then .num 3
  else .na

/-- Dataset with task 1 whose sole predecessor, task 7, is over-complete
(percent complete `3/2`). -/
def dfB : DataFrame :=
  ⟨["id", "status", "start", "pct", "rem", "preds"], [rowB, rowB7]⟩

/-- Task 1 with valid dates and the predecessor field `"6,7"`. -/
def rowC : String → Cell := fun col =>
  if col = "id" then .num 1
  else if col = "status" then .date 10
  else if col = "start" then .date 8
  else if col = "preds" then .str "6,7"
  else .na

/-- Task 6: status date 20, percent complete 0, remaining duration 3. -/
def rowC6 : String → Cell := fun col =>
  if col = "id" then .num 6
  else if col = "status" then .date 20
  else if col = "pct" then .num 0
  else if col = "rem" then .num 3
  else .na

/-- Task 7: status date 21, percent complete 0, remaining duration 7. -/
def rowC7 : String → Cell := fun col =>
  if col = "id" then .num 7
  else if col = "status" then .date 21
  else if col = "pct" then .num 0
  else if col = "rem" then .num 7
  else .na

/-- Dataset with task 1 and its two qualifying predecessors of remaining
durations 3 and 7. -/
def dfC : DataFrame :=
  ⟨["id", "status", "start", "pct", "rem", "preds"], [rowC, rowC6, rowC7]⟩

/-- Task 1 with a valid status date but a missing planned start date. -/
def rowD : String → Cell := fun col =>
  if col = "id" then .num 1
  else if col = "status" then .date 10
  else .na

/-- One-task dataset whose task has no planned start date. -/
def dfD : DataFrame :=
  ⟨["id", "status", "start", "pct", "rem", "preds"], [rowD]⟩

/-- Empty dataset that does have the identifier column in its schema. -/
def dfE : DataFrame :=
  ⟨["id", "status", "start", "pct", "rem", "preds"], []⟩

/-- The predecessor fact derived from `rowB7`. -/
def factB : PredFact := ⟨7, mkRat 3 2, 3, 20⟩

/-- The result tuple of the projection on `dfB` for task 1. -/
def resB : ProjSuccess :=
  ⟨add_working_days 10 (maxRemaining [factB]), 8,
    add_working_days 10 (maxRemaining [factB]) - 8, [factB]⟩

/-- The predecessor fact derived from `rowC6`. -/
def factC6 : PredFact := ⟨6, 0, 3, 20⟩

/-- The predecessor fact derived from `rowC7`. -/
def factC7 : PredFact := ⟨7, 0, 7, 21⟩

/-- The result tuple of the projection on `dfC` for task 1. -/
def resC : ProjSuccess :=
  ⟨add_working_days 10 (maxRemaining [factC6, factC7]), 8,
    add_working_days 10 (maxRemaining [factC6, factC7]) - 8, [factC6, factC7]⟩

/-! Theorems.  Helper lemmas come first; the claim theorems are named
`C1_...` to `C10_...`. -/

/-- The day-stepping loop never moves the current date backwards. -/
theorem addWorkingDaysGo_le (days : ℚ) (current : ℤ) (added : ℕ) :
    current ≤ addWorkingDaysGo days current added := by
  induction current, added using addWorkingDaysGo.induct days with
  | case1 current added h1 h2 ih =>
    rw [addWorkingDaysGo, dif_pos h1, dif_pos h2]
    omega
  | case2 current added h1 h2 ih =>
    rw [addWorkingDaysGo, dif_pos h1, dif_neg h2]
    omega
  | case3 current added h1 =>
    rw [addWorkingDaysGo, dif_neg h1]

/-- The loop guard `working_days_added < days` compares an integer counter
with the float bound, so the loop behaves identically for `days` and for
`⌈days⌉`. -/
theorem addWorkingDaysGo_ceil (days : ℚ) (current : ℤ) (added : ℕ) :
    addWorkingDaysGo days current added = addWorkingDaysGo ((⌈days⌉ : ℤ) : ℚ) current added := by
  induction current, added using addWorkingDaysGo.induct days with
  | case1 current added h1 h2 ih =>
    have h1c : ((added : ℕ) : ℚ) < ((⌈days⌉ : ℤ) : ℚ) := by
      have : (added : ℤ) < ⌈days⌉ := Int.lt_ceil.mpr (by exact_mod_cast h1)
      exact_mod_cast this
    rw [addWorkingDaysGo, dif_pos h1, dif_pos h2, ih]
    conv_rhs => rw [addWorkingDaysGo, dif_pos h1c, dif_pos h2]
  | case2 current added h1 h2 ih =>
    have h1c : ((added : ℕ) : ℚ) < ((⌈days⌉ : ℤ) : ℚ) := by
      have : (added : ℤ) < ⌈days⌉ := Int.lt_ceil.mpr (by exact_mod_cast h1)
      exact_mod_cast this
    rw [addWorkingDaysGo, dif_pos h1, dif_neg h2, ih]
    conv_rhs => rw [addWorkingDaysGo, dif_pos h1c, dif_neg h2]
  | case3 current added h1 =>
    have h1c : ¬ ((added : ℕ) : ℚ) < ((⌈days⌉ : ℤ) : ℚ) := by
      rw [not_lt] at h1 ⊢
      have : ⌈days⌉ ≤ (added : ℤ) := Int.ceil_le.mpr (by exact_mod_cast h1)
      exact_mod_cast this
    rw [addWorkingDaysGo, dif_neg h1]
    conv_rhs => rw [addWorkingDaysGo, dif_neg h1c]

/-- Iteration-count invariant of the loop: from a state with `added`
working days already counted, at most `7 * (⌈days⌉ - added) + wgap current`
further iterations run. -/
theorem awdIters_le_measure (days : ℚ) (current : ℤ) (added : ℕ) :
    awdIters days current added ≤ 7 * ((⌈days⌉).toNat - added) + wgap current := by
  induction current, added using awdIters.induct days with
  | case1 current added h1 ih1 ih2 =>
    rw [awdIters, dif_pos h1]
    have ha : (added : ℤ) < ⌈days⌉ := Int.lt_ceil.mpr (by exact_mod_cast h1)
    by_cases h2 : weekday (current + 1) < 5
    · rw [dif_pos h2]
      have hg : wgap (current + 1) ≤ 2 := by
        simp only [wgap]; split_ifs <;> omega
      omega
    · rw [dif_neg h2]
      have ih2h := ih2 h2
      have hw : wgap (current + 1) + 1 ≤ wgap current := by
        simp only [wgap, weekday] at h2 ⊢
        split_ifs <;> omega
      omega
  | case2 current added h1 =>
    rw [awdIters, dif_neg h1]
    omega

/-- C1: the claim says `clean_id_string` never raises on any predecessor
field value.  The function body would be total, but the module never
imports `re`, so every call on a non-missing value raises a `NameError`
for `re` at line 14.  This theorem evaluates the runtime behaviour at the
failing input `"101"`. -/
theorem C1_parser_raises_nameError :
    clean_id_stringRun (.str "101") = .error (.nameError "re") := rfl

/-- C2: the claim says `calculate_projected_start` selects the row matching
a caller-passed task id and otherwise fails with a not-found error.  The
function has no task-id parameter: line 43 reads the global name
`unique_id`, which is bound nowhere, so once the schema check passes every
call raises a `NameError` for `unique_id`.  This theorem evaluates the
runtime behaviour on a dataset that has the identifier column. -/
theorem C2_run_raises_nameError :
    calculate_projected_startRun dfE "id" "status" "start" "pct" "rem" "preds" =
      .error (.nameError "unique_id") := rfl

/-- C7: the claim gives the intended parse of
`"101FS, 102SS+2, bad, 205+3d"`; because the module never imports `re`,
the call on that exact string raises a `NameError` for `re` instead. -/
theorem C7_example_raises_nameError :
    clean_id_stringRun (.str "101FS, 102SS+2, bad, 205+3d") = .error (.nameError "re") := rfl

/-- The body of `clean_id_string` (with the regex calls given their
standard semantics, i.e. with the missing `import` repaired) yields exactly
`[101, 102, 205]` on the example of the specification, in that order. -/
theorem clean_id_string_body_example :
    clean_id_string (.str "101FS, 102SS+2, bad, 205+3d") = [101, 102, 205] := rfl

/-- C8: adding zero working days returns the start date unchanged, and for
a non-negative count the result is never earlier than the start date. -/
theorem C8_zero_and_never_earlier (d : ℤ) (q : ℚ) (h : 0 ≤ q) :
    add_working_days d 0 = d ∧ d ≤ add_working_days d q := by
  constructor
  · rw [add_working_days, addWorkingDaysGo,
      dif_neg (by norm_num : ¬ (((0 : ℕ) : ℚ) < (0 : ℚ)))]
  · exact addWorkingDaysGo_le q d 0

/-- Witness for C8 at `d = 0`, `q = 1`. -/
theorem C8_witness :
    (0 : ℚ) ≤ 1 ∧ (add_working_days 0 0 = 0 ∧ (0 : ℤ) ≤ add_working_days 0 1) :=
  ⟨by decide, C8_zero_and_never_earlier 0 1 (by decide)⟩

/-- C9: for a non-negative integer count `n` of working days, the
day-stepping loop of `add_working_days` performs at most `7 * n + 6`
iterations (so in particular it terminates, as the totality of
`add_working_days` itself already shows). -/
theorem C9_iteration_bound (d : ℤ) (n : ℕ) :
    awdIters (n : ℚ) d 0 ≤ 7 * n + 6 := by
  have h := awdIters_le_measure (n : ℚ) d 0
  rw [Int.ceil_natCast] at h
  have hg : wgap d ≤ 2 := by
    simp only [wgap]; split_ifs <;> omega
  omega

/-- C10: for a positive non-integer count, the loop guard
`working_days_added < days` makes `add_working_days` behave exactly as on
the ceiling of the count: fractional durations are rounded up to the next
whole working day. -/
theorem C10_fractional_rounds_up (d : ℤ) (q : ℚ) (hpos : 0 < q) (hnotint : q.den ≠ 1) :
    add_working_days d q = add_working_days d ((⌈q⌉ : ℤ) : ℚ) := by
  rw [add_working_days, add_working_days]
  exact addWorkingDaysGo_ceil q d 0

/-- Witness for C10 at `d = 0`, `q = 5/2`. -/
theorem C10_witness :
    (0 : ℚ) < mkRat 5 2 ∧ (mkRat 5 2).den ≠ 1 ∧
      add_working_days 0 (mkRat 5 2) = add_working_days 0 ((⌈(mkRat 5 2 : ℚ)⌉ : ℤ) : ℚ) :=
  ⟨by decide, by decide, C10_fractional_rounds_up 0 (mkRat 5 2) (by decide) (by decide)⟩

/-- A missing predecessor field parses to no identifiers. -/
theorem clean_id_string_of_na (c : Cell) (h : isnaCell c = true) :
    clean_id_string c = [] := by
  rw [clean_id_string, if_pos h]

/-- Soundness of the predecessor loop: every fact in `predecessor_data`
comes from a found row whose status date parsed and whose percent complete
is not 1, and carries exactly the derived values. -/
theorem mem_buildPredecessorData_sound (df : DataFrame)
    (uidCol statusCol pctCol remCol : String) (l : List ℤ) (f : PredFact)
    (hf : f ∈ buildPredecessorData df uidCol statusCol pctCol remCol l) :
    ∃ prow, findTask df uidCol f.predId = some prow ∧
      to_datetime (prow statusCol) = some f.statusDate ∧
      safe_numeric (prow pctCol) = f.percentComplete ∧
      safe_numeric (prow remCol) = f.remainingDuration ∧
      f.percentComplete ≠ 1 := by
  induction l with
  | nil => simp [buildPredecessorData] at hf
  | cons p rest ih =>
    cases hft : findTask df uidCol p with
    | none =>
      simp only [buildPredecessorData, hft] at hf
      exact ih hf
    | some prow =>
      cases hdt : to_datetime (prow statusCol) with
      | none =>
        simp only [buildPredecessorData, hft, hdt] at hf
        exact ih hf
      | some psd =>
        by_cases hpct : safe_numeric (prow pctCol) = 1
        · simp only [buildPredecessorData, hft, hdt, if_pos hpct] at hf
          exact ih hf
        · simp only [buildPredecessorData, hft, hdt, if_neg hpct] at hf
          rcases List.mem_cons.mp hf with heq | hmem
          · subst heq
            exact ⟨prow, hft, hdt, rfl, rfl, hpct⟩
          · exact ih hmem

/-- Completeness of the predecessor loop: every parsed identifier whose row
is found, whose status date parses, and whose percent complete is not 1
contributes its fact to `predecessor_data`. -/
theorem mem_buildPredecessorData_complete (df : DataFrame)
    (uidCol statusCol pctCol remCol : String) (l : List ℤ)
    (pid : ℤ) (prow : String → Cell) (psd : ℤ)
    (hmem : pid ∈ l)
    (hft : findTask df uidCol pid = some prow)
    (hdt : to_datetime (prow statusCol) = some psd)
    (hpct : safe_numeric (prow pctCol) ≠ 1) :
    (⟨pid, safe_numeric (prow pctCol), safe_numeric (prow remCol), psd⟩ : PredFact) ∈
      buildPredecessorData df uidCol statusCol pctCol remCol l := by
  induction l with
  | nil => cases hmem
  | cons p rest ih =>
    rcases List.mem_cons.mp hmem with heq | hmem2
    · subst heq
      simp only [buildPredecessorData, hft, hdt, if_neg hpct]
      exact List.mem_cons_self _ _
    · cases hft2 : findTask df uidCol p with
      | none =>
        simp only [buildPredecessorData, hft2]
        exact ih hmem2
      | some prow2 =>
        cases hdt2 : to_datetime (prow2 statusCol) with
        | none =>
          simp only [buildPredecessorData, hft2, hdt2]
          exact ih hmem2
        | some psd2 =>
          by_cases hpct2 : safe_numeric (prow2 pctCol) = 1
          · simp only [buildPredecessorData, hft2, hdt2, if_pos hpct2]
            exact ih hmem2
          · simp only [buildPredecessorData, hft2, hdt2, if_neg hpct2]
            exact List.mem_cons_of_mem _ (ih hmem2)

/-- C3 (amended): for a found task with valid status and planned start
dates whose predecessor field is missing or parses to no identifiers, the
projection returns the status date as the projected start, the planned
start unchanged, delta `0` (the literal of source lines 59 and 93, not
status minus planned), and no predecessor facts. -/
theorem C3_no_predecessors_projection (df : DataFrame) (uid : ℤ)
    (uidCol statusCol startCol pctCol remCol predsCol : String)
    (task : String → Cell) (sd ps : ℤ) (r : ProjSuccess)
    (hcalc : calculate_projected_start df uid uidCol statusCol startCol pctCol remCol predsCol =
      .ok r)
    (htask : findTask df uidCol uid = some task)
    (hsd : to_datetime (task statusCol) = some sd)
    (hps : to_datetime (task startCol) = some ps)
    (hpreds : isnaCell (task predsCol) = true ∨ clean_id_string (task predsCol) = []) :
    r.projectedStart = sd ∧ r.plannedStart = ps ∧ r.delta = 0 ∧ r.predecessorData = [] := by
  unfold calculate_projected_start at hcalc
  rw [htask] at hcalc
  simp only [hsd, hps] at hcalc
  split at hcalc
  · rcases hpreds with hna | hnil
    · rw [hna, if_pos rfl] at hcalc
      injection hcalc with h
      subst h
      exact ⟨rfl, rfl, rfl, rfl⟩
    · by_cases hna : isnaCell (task predsCol) = true
      · rw [hna, if_pos rfl] at hcalc
        injection hcalc with h
        subst h
        exact ⟨rfl, rfl, rfl, rfl⟩
      · rw [if_neg hna, hnil] at hcalc
        simp only [buildPredecessorData, List.isEmpty_nil, if_pos rfl] at hcalc
        injection hcalc with h
        subst h
        exact ⟨rfl, rfl, rfl, rfl⟩
  · exact absurd hcalc (by simp)

/-- C3 counterexample: on `dfA` the task has status date 10, planned
start 8, no predecessor field; the code returns delta `0`, whereas the
claim says delta equals status date minus planned start, which here is
`10 - 8 = 2 ≠ 0`. -/
theorem C3_counterexample :
    calculate_projected_start dfA 1 "id" "status" "start" "pct" "rem" "preds" =
      .ok ⟨10, 8, 0, []⟩ ∧ (0 : ℤ) ≠ 10 - 8 :=
  ⟨rfl, by decide⟩

/-- Witness for C3 (amended) on `dfA`. -/
theorem C3_witness :
    (calculate_projected_start dfA 1 "id" "status" "start" "pct" "rem" "preds" =
        .ok ⟨10, 8, 0, []⟩ ∧
      findTask dfA "id" 1 = some rowA ∧
      to_datetime (rowA "status") = some 10 ∧
      to_datetime (rowA "start") = some 8 ∧
      isnaCell (rowA "preds") = true) ∧
    ((⟨10, 8, 0, []⟩ : ProjSuccess).projectedStart = 10 ∧
      (⟨10, 8, 0, []⟩ : ProjSuccess).plannedStart = 8 ∧
      (⟨10, 8, 0, []⟩ : ProjSuccess).delta = 0 ∧
      (⟨10, 8, 0, []⟩ : ProjSuccess).predecessorData = []) :=
  ⟨⟨rfl, rfl, rfl, rfl, rfl⟩,
    C3_no_predecessors_projection dfA 1 "id" "status" "start" "pct" "rem" "preds" rowA 10 8
      ⟨10, 8, 0, []⟩ rfl rfl rfl rfl (Or.inl rfl)⟩

/-- C4 (amended): on a successful projection, a fact for a parsed
predecessor identifier is in the returned collection if and only if that
identifier has a row, its status date parses, and its percent complete is
not equal to 1 (the source line 80 tests equality with 1, not being less
than 1). -/
theorem C4_fact_included_iff (df : DataFrame) (uid : ℤ)
    (uidCol statusCol startCol pctCol remCol predsCol : String)
    (task : String → Cell) (sd ps : ℤ) (r : ProjSuccess) (pid : ℤ)
    (hcalc : calculate_projected_start df uid uidCol statusCol startCol pctCol remCol predsCol =
      .ok r)
    (htask : findTask df uidCol uid = some task)
    (hsd : to_datetime (task statusCol) = some sd)
    (hps : to_datetime (task startCol) = some ps)
    (hmem : pid ∈ clean_id_string (task predsCol)) :
    (∃ f ∈ r.predecessorData, f.predId = pid) ↔
      ∃ prow, findTask df uidCol pid = some prow ∧
        (to_datetime (prow statusCol)).isSome = true ∧
        safe_numeric (prow pctCol) ≠ 1 := by
  unfold calculate_projected_start at hcalc
  rw [htask] at hcalc
  simp only [hsd, hps] at hcalc
  split at hcalc
  · by_cases hna : isnaCell (task predsCol) = true
    · rw [clean_id_string_of_na _ hna] at hmem
      cases hmem
    · rw [if_neg hna] at hcalc
      split at hcalc
      · rename_i hempty
        injection hcalc with h
        subst h
        simp only []
        constructor
        · rintro ⟨f, hf, _⟩
          cases hf
        · rintro ⟨prow, hft, hdt, hpct⟩
          rcases Option.isSome_iff_exists.mp hdt with ⟨psd, hdt2⟩
          have := mem_buildPredecessorData_complete df uidCol statusCol pctCol remCol
            (clean_id_string (task predsCol)) pid prow psd hmem hft hdt2 hpct
          rw [List.isEmpty_iff.mp hempty] at this
          cases this
      · rename_i hempty
        injection hcalc with h
        subst h
        simp only []
        constructor
        · rintro ⟨f, hf, hfid⟩
          rcases mem_buildPredecessorData_sound df uidCol statusCol pctCol remCol
            (clean_id_string (task predsCol)) f hf with ⟨prow, hft, hdt, hpc, hrd, hne1⟩
          subst hfid
          refine ⟨prow, hft, ?_, ?_⟩
          · rw [hdt]; rfl
          · rw [hpc]; exact hne1
        · rintro ⟨prow, hft, hdt, hpct⟩
          rcases Option.isSome_iff_exists.mp hdt with ⟨psd, hdt2⟩
          exact ⟨_, mem_buildPredecessorData_complete df uidCol statusCol pctCol remCol
            (clean_id_string (task predsCol)) pid prow psd hmem hft hdt2 hpct, rfl⟩
  · exact absurd hcalc (by simp)

/-- C4 counterexample: in `dfB`, predecessor 7 exists, has a valid status
date, and has percent complete `3/2`, which is not strictly less than 1;
its fact is nevertheless included in the returned collection, because the
source only skips predecessors whose percent complete equals 1 exactly. -/
theorem C4_counterexample :
    calculate_projected_start dfB 1 "id" "status" "start" "pct" "rem" "preds" = .ok resB ∧
    findTask dfB "id" 7 = some rowB7 ∧
    to_datetime (rowB7 "status") = some 20 ∧
    ¬ safe_numeric (rowB7 "pct") < 1 :=
  ⟨rfl, rfl, rfl, by decide⟩

/-- Witness for C4 (amended) on `dfB` with predecessor identifier 7. -/
theorem C4_witness :
    (calculate_projected_start dfB 1 "id" "status" "start" "pct" "rem" "preds" = .ok resB ∧
      findTask dfB "id" 1 = some rowB ∧
      to_datetime (rowB "status") = some 10 ∧
      to_datetime (rowB "start") = some 8 ∧
      7 ∈ clean_id_string (rowB "preds")) ∧
    ((∃ f ∈ resB.predecessorData, f.predId = 7) ↔
      ∃ prow, findTask dfB "id" 7 = some prow ∧
        (to_datetime (prow "status")).isSome = true ∧
        safe_numeric (prow "pct") ≠ 1) :=
  ⟨⟨rfl, rfl, rfl, rfl, by decide⟩,
    C4_fact_included_iff dfB 1 "id" "status" "start" "pct" "rem" "preds" rowB 10 8 resB 7
      rfl rfl rfl rfl (by decide)⟩

/-- C5: on a successful projection with a non-empty fact collection, the
projected start is `add_working_days` of the task's own status date and
the maximum remaining duration over the collection, and the collection
contains the fact of every qualifying parsed predecessor. -/
theorem C5_uses_max_and_reports_all (df : DataFrame) (uid : ℤ)
    (uidCol statusCol startCol pctCol remCol predsCol : String)
    (task : String → Cell) (sd ps : ℤ) (r : ProjSuccess)
    (hcalc : calculate_projected_start df uid uidCol statusCol startCol pctCol remCol predsCol =
      .ok r)
    (htask : findTask df uidCol uid = some task)
    (hsd : to_datetime (task statusCol) = some sd)
    (hps : to_datetime (task startCol) = some ps)
    (hne : r.predecessorData ≠ []) :
    r.projectedStart = add_working_days sd (maxRemaining r.predecessorData) ∧
    (∀ pid prow psd, pid ∈ clean_id_string (task predsCol) →
      findTask df uidCol pid = some prow →
      to_datetime (prow statusCol) = some psd →
      safe_numeric (prow pctCol) ≠ 1 →
      (⟨pid, safe_numeric (prow pctCol), safe_numeric (prow remCol), psd⟩ : PredFact) ∈
        r.predecessorData) := by
  unfold calculate_projected_start at hcalc
  rw [htask] at hcalc
  simp only [hsd, hps] at hcalc
  split at hcalc
  · by_cases hna : isnaCell (task predsCol) = true
    · rw [if_pos hna] at hcalc
      injection hcalc with h
      subst h
      exact absurd rfl hne
    · rw [if_neg hna] at hcalc
      split at hcalc
      · injection hcalc with h
        subst h
        exact absurd rfl hne
      · rename_i hempty
        injection hcalc with h
        subst h
        refine ⟨rfl, ?_⟩
        intro pid prow psd hm hf hd hp
        exact mem_buildPredecessorData_complete df uidCol statusCol pctCol remCol
          (clean_id_string (task predsCol)) pid prow psd hm hf hd hp
  · exact absurd hcalc (by simp)

/-- Witness for C5 on `dfC`: two qualifying predecessors with remaining
durations 3 and 7; the projection uses the maximum and both facts are
reported. -/
theorem C5_witness :
    (calculate_projected_start dfC 1 "id" "status" "start" "pct" "rem" "preds" = .ok resC ∧
      findTask dfC "id" 1 = some rowC ∧
      to_datetime (rowC "status") = some 10 ∧
      to_datetime (rowC "start") = some 8 ∧
      resC.predecessorData ≠ []) ∧
    resC.projectedStart = add_working_days 10 (maxRemaining resC.predecessorData) ∧
    factC6 ∈ resC.predecessorData ∧ factC7 ∈ resC.predecessorData :=
  ⟨⟨rfl, rfl, rfl, rfl, by decide⟩,
    (C5_uses_max_and_reports_all dfC 1 "id" "status" "start" "pct" "rem" "preds" rowC 10 8 resC
      rfl rfl rfl rfl (by decide)).1,
    (C5_uses_max_and_reports_all dfC 1 "id" "status" "start" "pct" "rem" "preds" rowC 10 8 resC
      rfl rfl rfl rfl (by decide)).2 6 rowC6 20 (by decide) rfl rfl (by decide),
    (C5_uses_max_and_reports_all dfC 1 "id" "status" "start" "pct" "rem" "preds" rowC 10 8 resC
      rfl rfl rfl rfl (by decide)).2 7 rowC7 21 (by decide) rfl rfl (by decide)⟩

/-- C6: a found task whose status date is valid but whose planned start
date is missing or unparsable makes the whole projection fail with the
invalid-planned-start-date outcome naming the task id, producing no
result tuple. -/
theorem C6_missing_planned_start (df : DataFrame) (uid : ℤ)
    (uidCol statusCol startCol pctCol remCol predsCol : String)
    (task : String → Cell) (sd : ℤ)
    (hmem : uidCol ∈ df.columns)
    (htask : findTask df uidCol uid = some task)
    (hsd : to_datetime (task statusCol) = some sd)
    (hps : to_datetime (task startCol) = none) :
    calculate_projected_start df uid uidCol statusCol startCol pctCol remCol predsCol =
      .error (.invalidStartDate uid) := by
  unfold calculate_projected_start
  rw [if_pos hmem, htask]
  simp only [hsd, hps]

/-- Witness for C6 on `dfD`: valid status date, missing planned start. -/
theorem C6_witness :
    ("id" ∈ dfD.columns ∧ findTask dfD "id" 1 = some rowD ∧
      to_datetime (rowD "status") = some 10 ∧ to_datetime (rowD "start") = none) ∧
    calculate_projected_start dfD 1 "id" "status" "start" "pct" "rem" "preds" =
      .error (.invalidStartDate 1) :=
  ⟨⟨by decide, rfl, rfl, rfl⟩,
    C6_missing_planned_start dfD 1 "id" "status" "start" "pct" "rem" "preds" rowD 10
      (by decide) rfl rfl rfl⟩

end Driving
